import Mathlib

/-!
Shallow embedding of `src/main.c` (systray_multi_monitor): a tray-icon
program that mirrors boolean sysfs attributes into X11 tray icons, watching
them with inotify and multiplexing X11 and inotify readiness with select().

The filesystem is modelled as a snapshot `FS : String → Option String`
(`none` when `open` fails).  `read(fd, b, 7)` on an open file returns its
first 7 bytes; a read of an empty file returns 0 bytes.  X11 and inotify
side effects are modelled as explicit traces; machine ints are `Int`/`Nat`
(values involved are tiny, far from any overflow).
-/

namespace KeyIndicator

/-- Filesystem snapshot: content of each path, `none` if `open` fails. -/
def FS : Type := String → Option String

/-- The whitespace characters skipped by C `atoi` (C `isspace`). -/
def isSpaceC (c : Char) : Bool :=
  c = ' ' || c = '\t' || c = '\n' || c = '\x0b' || c = '\x0c' || c = '\r'

/-- Value of a run of decimal digits (most significant first). -/
def digitsVal (cs : List Char) : Nat :=
  cs.foldl (fun acc c => acc * 10 + (c.toNat - 48)) 0

/-- C `atoi` on the character list of a buffer: skip leading whitespace,
optional sign, then the longest run of decimal digits. -/
def atoiL (cs : List Char) : Int :=
  match cs.dropWhile isSpaceC with
  | '-' :: rest => - Int.ofNat (digitsVal (rest.takeWhile Char.isDigit))
  | '+' :: rest => Int.ofNat (digitsVal (rest.takeWhile Char.isDigit))
  | rest => Int.ofNat (digitsVal (rest.takeWhile Char.isDigit))

/-- `read_bool` (src/main.c lines 68-76): open the path; on failure return
-1; read up to 7 bytes into a zeroed buffer; if no bytes were read return
-1; otherwise `atoi` of the buffer. -/
def read_bool (fs : FS) (p : String) : Int :=
  match fs p with
  | none => -1
  | some s => if s.data.isEmpty then -1 else atoiL (s.data.take 7)

/-- One tracked attribute (struct `Attr`, src/main.c lines 43-52). -/
structure Attr where
  path : String
  label : String
  fg : Nat
  bg_active : Nat
  bg_inactive : Nat
  state : Int
  wd : Int
  win : Nat
deriving DecidableEq, Repr

/-- What one call of `draw_icon` paints: the fill colour of the 24×24
square, and the label overlay (text and colour) when one is drawn. -/
structure IconPaint where
  bg : Nat
  overlay : Option (String × Nat)
deriving DecidableEq, Repr

/-- `draw_icon` (src/main.c lines 80-93): fill with
`a->state ? bg_active : bg_inactive` (C truth test: nonzero), and draw the
label in `fg` iff `a->state` is nonzero. -/
def draw_icon (a : Attr) : IconPaint :=
  { bg := if a.state ≠ 0 then a.bg_active else a.bg_inactive
  , overlay := if a.state ≠ 0 then some (a.label, a.fg) else none }

/-- The tri-valued state named by the spec. -/
inductive TriState where
  | active
  | inactive
  | unknown
deriving DecidableEq, Repr

/-- `read_state` as the spec words it (§4.1): active if a leading nonzero
integer is parsed, inactive if zero, unknown exactly when open/read fails.
Used only to compare the spec's wording with `read_bool`. -/
def read_state_spec (fs : FS) (p : String) : TriState :=
  match fs p with
  | none => .unknown
  | some s =>
      if s.data.isEmpty then .unknown
      else if atoiL (s.data.take 7) ≠ 0 then .active else .inactive

/-- Notification handling for one descriptor (src/main.c lines 233-237):
re-read the source; store and redraw only when the value is non-negative
and differs from the cached state.  Returns the updated descriptor and
whether a redraw happened. -/
def notify_step (fs : FS) (a : Attr) : Attr × Bool :=
  let v := read_bool fs a.path
  if 0 ≤ v ∧ v ≠ a.state then ({ a with state := v }, true) else (a, false)

/-- Dispatch of one inotify record (src/main.c lines 231-240): scan the
attribute list for the first descriptor whose watch descriptor matches the
record's `wd`, apply `notify_step` to it and stop (`break`); all other
descriptors are untouched.  Returns the updated list and whether a redraw
happened. -/
def dispatch_record (fs : FS) : List Attr → Int → List Attr × Bool
  | [], _ => ([], false)
  | a :: rest, rwd =>
      if a.wd = rwd then
        let r := notify_step fs a
        (r.1 :: rest, r.2)
      else
        let r := dispatch_record fs rest rwd
        (a :: r.1, r.2)

/-- A sequence of notification deliveries for one descriptor: each element
is the filesystem snapshot at the instant that record is handled.  Returns
the final descriptor and the number of redraws performed. -/
def run_notifications (a : Attr) : List FS → Attr × Nat
  | [] => (a, 0)
  | fs :: rest =>
      let r := notify_step fs a
      let t := run_notifications r.1 rest
      (t.1, (if r.2 then 1 else 0) + t.2)

/-- Number of cached-state transitions observed along a delivery sequence. -/
def transitions (a : Attr) : List FS → Nat
  | [] => 0
  | fs :: rest =>
      let a2 := (notify_step fs a).1
      (if a2.state ≠ a.state then 1 else 0) + transitions a2 rest

/-- The cached states drawn by the redraws along a delivery sequence, in
order (each redraw paints the just-updated state). -/
def redraw_values (a : Attr) : List FS → List Int
  | [] => []
  | fs :: rest =>
      let r := notify_step fs a
      (if r.2 then [r.1.state] else []) ++ redraw_values r.1 rest

/-- An X11 protocol event as the loop sees it: an exposure of some window,
or anything else. -/
inductive XEv where
  | expose (win : Nat)
  | other
deriving DecidableEq, Repr

/-- One observable dispatch action of a wake cycle: a `draw_icon` of the
descriptor at index `i` triggered by an X exposure, or the processing of
an inotify record carrying watch descriptor `wd`. -/
inductive Act where
  | xDraw (i : Nat)
  | inoRecord (wd : Int)
deriving DecidableEq, Repr

/-- The X drain loop (src/main.c lines 208-220): for each pending event,
if it is an exposure, draw the first descriptor whose window matches;
every non-exposure event is ignored.  Descriptor state is not mutated. -/
def drain_x (attrs : List Attr) : List XEv → List Act
  | [] => []
  | XEv.expose w :: rest =>
      (match attrs.findIdx? (fun a => a.win = w) with
       | some i => [Act.xDraw i]
       | none => []) ++ drain_x attrs rest
  | XEv.other :: rest => drain_x attrs rest

/-- The inotify batch loop (src/main.c lines 227-242): records of one
`read` batch are processed in order, each dispatched to its owning
descriptor (a failed `read` of the inotify fd corresponds to an empty
batch).  Returns the updated list and the actions in order. -/
def drain_ino (fs : FS) : List Attr → List Int → List Attr × List Act
  | attrs, [] => (attrs, [])
  | attrs, rwd :: rest =>
      let d := dispatch_record fs attrs rwd
      let t := drain_ino fs d.1 rest
      (t.1, Act.inoRecord rwd :: t.2)

/-- One wake cycle of the event loop (src/main.c lines 206-244), after a
successful `select`: if the X fd is ready, drain all pending X events; then,
if the inotify fd is ready, process the batch of records. -/
def wake_cycle (fs : FS) (attrs : List Attr) (xReady inoReady : Bool)
    (xevs : List XEv) (recs : List Int) : List Attr × List Act :=
  let xacts := if xReady then drain_x attrs xevs else []
  if inoReady then
    let d := drain_ino fs attrs recs
    (d.1, xacts ++ d.2)
  else
    (attrs, xacts)

/-- Outcome of one `select` call (src/main.c line 199). -/
inductive WaitResult where
  | ready (x ino : Bool)
  | eintr
  | err
deriving DecidableEq, Repr

/-- What the loop does next for each `select` outcome. -/
inductive LoopStep where
  | retryWait
  | exitProcess (code : Nat)
  | dispatch (x ino : Bool)
deriving DecidableEq, Repr

/-- The wait handling (src/main.c lines 199-204 and 247): a negative
`select` with `errno == EINTR` retries (`continue`); any other failure
breaks out of the loop and falls through to `return 0` at the end of
`main`, with no teardown in between; otherwise the cycle dispatches. -/
def wait_step : WaitResult → LoopStep
  | .eintr => .retryWait
  | .err => .exitProcess 0
  | .ready x ino => .dispatch x ino

/-- Startup of `main` (src/main.c lines 131-134, 158-162, 174-178): the
exit code produced before the event loop, if any, and whether the usage
message was printed on stderr.  `nArgs` is the number of positional
arguments (`argc - 1`); `xOk` is whether `XOpenDisplay` succeeded; `inoOk`
whether `inotify_init1` succeeded. -/
def main_startup (nArgs : Nat) (xOk inoOk : Bool) : Option Nat × Bool :=
  if nArgs = 0 then (some 1, true)
  else if xOk = false then (some 1, false)
  else if inoOk = false then (some 1, false)
  else (none, false)

/-- Registration of one inotify watch (src/main.c lines 180-186): the
syscall result `res` is stored into the descriptor's `wd` field
unconditionally, and a warning is printed iff it is negative; nothing else
happens (no exit, no state change). -/
def add_watch_step (res : Int) (a : Attr) : Attr × Bool :=
  ({ a with wd := res }, decide (res < 0))

/-- The registration loop over all descriptors: `syscall` gives each
descriptor's `inotify_add_watch` result.  Every descriptor is processed
(a failure never stops the loop); returns the updated list and the number
of warnings printed. -/
def register_all (syscall : Attr → Int) : List Attr → List Attr × Nat
  | [] => ([], 0)
  | a :: rest =>
      let r := add_watch_step (syscall a) a
      let t := register_all syscall rest
      (r.1 :: t.1, (if r.2 then 1 else 0) + t.2)

/-- The startup create-and-dock loop (src/main.c lines 168-171):
`for (i = n_attr - 1; i >= 0; --i) create_window, draw_icon` — iterate the
descriptor indices downward from `n`.  Returns the descriptors in the
order they are created, docked and first painted. -/
def dock_iter (attrs : List Attr) : Nat → List Attr
  | 0 => []
  | Nat.succ i => (attrs.get? i).toList ++ dock_iter attrs i

/-- The full create/dock/first-paint order of `main`. -/
def startup_dock_order (attrs : List Attr) : List Attr :=
  dock_iter attrs attrs.length

/-- Modelled from the spec (§4.3, external host tray, not code of this
repository): the tray container appends each newly docked window at one
end of its visible row — the left end, per the ordering contract that
reverse-order docking yields left-to-right input order. -/
def tray_append (row : List Attr) (a : Attr) : List Attr := a :: row

/-- Left-to-right visual row after docking a sequence of windows in order. -/
def tray_visual (dockSeq : List Attr) : List Attr :=
  dockSeq.foldl tray_append []

/-! Concrete fixtures used by counterexamples and witnesses. -/

/-- A filesystem where no path can be opened. -/
def fs_missing : FS := fun _ => none

/-- A filesystem where `/a` holds the text `-1` and nothing else opens. -/
def fs_c3 : FS := fun p => if p = "/a" then some "-1" else none

/-- A filesystem where `/neg` holds the text `-7` and nothing else opens. -/
def fs_neg : FS := fun p => if p = "/neg" then some "-7" else none

/-- A filesystem where `/s` holds the text `1`. -/
def fs_one : FS := fun p => if p = "/s" then some "1" else none

/-- A filesystem where `/s` holds the text `0`. -/
def fs_zero : FS := fun p => if p = "/s" then some "0" else none

/-- A descriptor whose source could not be opened at startup: its `state`
field holds exactly what line 154 stores, `read_bool` of an unopenable
path. -/
def attr_unknown : Attr :=
  { path := "/x", label := "FOO", fg := 0, bg_active := 0xFF0000
  , bg_inactive := 0x202020, state := read_bool fs_missing "/x"
  , wd := -1, win := 1 }

/-- A descriptor watching `/neg` with cached state 0. -/
def attr_neg : Attr :=
  { path := "/neg", label := "N", fg := 0, bg_active := 1, bg_inactive := 2
  , state := 0, wd := 4, win := 5 }

/-- A descriptor watching `/s` with cached state 0. -/
def attr_rt : Attr :=
  { path := "/s", label := "L", fg := 1, bg_active := 2, bg_inactive := 3
  , state := 0, wd := 5, win := 9 }

/-- `attr_rt` with cached state 1. -/
def attr_one : Attr := { attr_rt with state := 1 }

/-- `attr_rt` after a failed watch registration (`wd = -1`). -/
def attr_bad : Attr := { attr_rt with wd := -1 }

/-! Helper lemmas. -/

/-- A notification redraw happens exactly when the cached state changes. -/
lemma notify_step_redraw_iff (fs : FS) (a : Attr) :
    (notify_step fs a).2 = true ↔ (notify_step fs a).1.state ≠ a.state := by
  simp only [notify_step]
  split
  · next h => simpa using h.2
  · next h => simp

/-- The redraw count of a delivery sequence is the transition count. -/
lemma run_notifications_snd (l : List FS) (a : Attr) :
    (run_notifications a l).2 = transitions a l := by
  induction l generalizing a with
  | nil => rfl
  | cons fs rest ih =>
      simp only [run_notifications, transitions]
      rw [ih]
      congr 1
      rcases hb : (notify_step fs a).2 with _ | _
      · have hst : ¬ (notify_step fs a).1.state ≠ a.state := by
          intro hne
          have := (notify_step_redraw_iff fs a).mpr hne
          rw [hb] at this
          exact Bool.false_ne_true this
        simp [hst]
      · have hst := (notify_step_redraw_iff fs a).mp hb
        simp [hst]

/-- The downward dock loop enumerates a prefix in reverse. -/
lemma dock_iter_eq (attrs : List Attr) :
    ∀ n, dock_iter attrs n = (attrs.take n).reverse := by
  intro n
  induction n with
  | zero => simp [dock_iter]
  | succ n ih =>
      rw [dock_iter, ih, List.take_succ, List.reverse_append,
        List.get?_eq_getElem?]
      congr 1
      cases attrs[n]? <;> simp

/-- Folding `tray_append` prepends the reversed sequence. -/
lemma foldl_tray_append (l : List Attr) :
    ∀ acc, l.foldl tray_append acc = l.reverse ++ acc := by
  induction l with
  | nil => intro acc; rfl
  | cons a rest ih =>
      intro acc
      simp only [List.foldl, List.reverse_cons]
      rw [ih, tray_append, List.append_assoc]
      rfl

/-- The inotify drain emits one record action per record, in order. -/
lemma drain_ino_acts (fs : FS) :
    ∀ (recs : List Int) (attrs : List Attr),
      (drain_ino fs attrs recs).2 = recs.map Act.inoRecord := by
  intro recs
  induction recs with
  | nil => intro attrs; rfl
  | cons r rest ih => intro attrs; simp [drain_ino, ih]

/-- Dispatch of a record with a valid (non-negative) watch descriptor
leaves every descriptor whose registration failed (`wd < 0`) unchanged at
its position. -/
lemma dispatch_record_keeps_failed (fs : FS) (rwd : Int) (h : 0 ≤ rwd) :
    ∀ (attrs : List Attr) (i : Nat) (b : Attr), attrs.get? i = some b →
      b.wd < 0 → (dispatch_record fs attrs rwd).1.get? i = some b := by
  intro attrs
  induction attrs with
  | nil => intro i b hb; simp at hb
  | cons a rest ih =>
      intro i b hb hneg
      by_cases hm : a.wd = rwd
      · cases i with
        | zero =>
            simp only [List.get?] at hb
            cases hb
            omega
        | succ i =>
            simp only [List.get?] at hb
            simp only [dispatch_record, hm, if_pos]
            exact hb

      · cases i with
        | zero =>
            simp only [List.get?] at hb ⊢
            simp only [dispatch_record, hm, if_neg, List.get?]
            exact hb
        | succ i =>
            simp only [List.get?] at hb
            simp only [dispatch_record, hm, if_neg, List.get?]
            exact ih i b hb hneg

/-! Claim theorems. -/

/-- Claim C1, evaluated at the failing input: a descriptor whose source
cannot be opened stores `read_bool`'s failure value -1 as its cached
state, and `draw_icon` — which tests `state` for nonzero — then fills the
square with `bg_active` and draws the label in `fg`: the unknown state is
rendered identically to the ACTIVE state, not to the inactive one
(background `bg_inactive`, no label) that the claim describes. -/
theorem c1_unknown_renders_active :
    read_bool fs_missing "/x" = -1 ∧
    attr_unknown.state = -1 ∧
    draw_icon attr_unknown =
      { bg := attr_unknown.bg_active
      , overlay := some (attr_unknown.label, attr_unknown.fg) } ∧
    draw_icon attr_unknown ≠
      { bg := attr_unknown.bg_inactive, overlay := none } ∧
    draw_icon attr_unknown = draw_icon { attr_unknown with state := 1 } := by
  decide

/-- Claim C2, counterexample: with source content `-7` the re-read
succeeds (the file opens and the read returns bytes) with parsed value -7,
different from the cached state 0, yet the event loop's guard
`v >= 0 && v != state` neither updates the cached state nor redraws. -/
theorem c2_counterexample :
    fs_neg "/neg" = some "-7" ∧
    ("-7" : String).data.isEmpty = false ∧
    read_bool fs_neg "/neg" = -7 ∧
    attr_neg.state = 0 ∧
    read_bool fs_neg "/neg" ≠ attr_neg.state ∧
    notify_step fs_neg attr_neg = (attr_neg, false) := by
  decide

/-- Claim C2 as amended: on a notification the source is re-read; if the
re-read yields a negative value (an open/read failure, or content parsing
to a negative integer) the previous cached state is retained and no redraw
occurs; if it yields a non-negative value different from the cached state,
the cached state is updated and a redraw occurs; if it yields a
non-negative value equal to the cached state, no redraw occurs. -/
theorem c2_amended (fs : FS) (a : Attr) :
    (read_bool fs a.path < 0 → notify_step fs a = (a, false)) ∧
    (0 ≤ read_bool fs a.path → read_bool fs a.path ≠ a.state →
      notify_step fs a = ({ a with state := read_bool fs a.path }, true)) ∧
    (0 ≤ read_bool fs a.path → read_bool fs a.path = a.state →
      notify_step fs a = (a, false)) := by
  refine ⟨?_, ?_, ?_⟩
  · intro h
    simp only [notify_step]
    rw [if_neg]
    rintro ⟨h0, -⟩
    omega
  · intro h0 hne
    simp only [notify_step]
    rw [if_pos ⟨h0, hne⟩]
  · intro h0 heq
    simp only [notify_step]
    rw [if_neg]
    rintro ⟨-, hne⟩
    exact hne heq

/-- Witness for `c2_amended`: a record for a source now reading `1`
against cached state 0 updates the cache and redraws. -/
theorem c2_amended_witness :
    notify_step fs_one attr_rt = ({ attr_rt with state := 1 }, true) := by
  have h := (c2_amended fs_one attr_rt).2.1 (by decide) (by decide)
  rw [(by decide : read_bool fs_one attr_rt.path = 1)] at h
  exact h

/-- Claim C3, counterexample: content `-1` parses to the nonzero integer
-1, which the claim maps to active while an unopenable path maps to
unknown; yet `read_bool` returns the very same value -1 for both, so its
return cannot encode "active for every nonzero parsed value" and "unknown
exactly when the open or read fails" simultaneously. -/
theorem c3_counterexample :
    read_state_spec fs_c3 "/a" = TriState.active ∧
    read_state_spec fs_c3 "/b" = TriState.unknown ∧
    read_bool fs_c3 "/a" = read_bool fs_c3 "/b" ∧
    read_bool fs_c3 "/a" = -1 := by
  decide

/-- Claim C3 as amended: `read_bool` is total (never throws) and returns
-1 when the open fails or the read yields no bytes, and otherwise the
integer parsed from the first 7 bytes; whenever that parsed value is
non-negative the claimed tri-state reading holds — positive return means
active, zero return means inactive — while a negative parsed value is
returned as-is and is indistinguishable from the failure code. -/
theorem c3_amended (fs : FS) (p : String) :
    (fs p = none → read_bool fs p = -1) ∧
    (∀ s, fs p = some s → s.data.isEmpty = true → read_bool fs p = -1) ∧
    (∀ s, fs p = some s → s.data.isEmpty = false →
      read_bool fs p = atoiL (s.data.take 7)) ∧
    (∀ s, fs p = some s → s.data.isEmpty = false →
      0 ≤ atoiL (s.data.take 7) →
      ((read_state_spec fs p = TriState.active ↔ 0 < read_bool fs p) ∧
       (read_state_spec fs p = TriState.inactive ↔ read_bool fs p = 0))) := by
  refine ⟨?_, ?_, ?_, ?_⟩
  · intro h
    simp [read_bool, h]
  · intro s hs he
    simp [read_bool, hs, he]
  · intro s hs he
    simp [read_bool, hs, he]
  · intro s hs he hnn
    simp only [read_bool, read_state_spec, hs, he, Bool.false_eq_true,
      if_false]
    by_cases hz : atoiL (s.data.take 7) = 0
    · simp [hz]
    · have hpos : 0 < atoiL (s.data.take 7) := lt_of_le_of_ne hnn (Ne.symm hz)
      simp [hz]
      omega

/-- Witness for `c3_amended`: a readable source with content `1` returns
the parsed value 1, read as active. -/
theorem c3_amended_witness :
    read_bool fs_one "/s" = atoiL ("1".data) ∧
    (read_state_spec fs_one "/s" = TriState.active ↔
      0 < read_bool fs_one "/s") := by
  refine ⟨?_, ?_⟩
  · exact (c3_amended fs_one "/s").2.2.1 "1" (by decide) (by decide)
  · exact ((c3_amended fs_one "/s").2.2.2 "1" (by decide) (by decide)
      (by decide)).1

/-- Claim C4: the startup loop creates, docks and first paints the
descriptors by iterating the list in exact reverse order, and under the
tray's append-at-one-end behaviour the resulting left-to-right visual
order equals the input order. -/
theorem c4_reverse_dock_order (attrs : List Attr) :
    startup_dock_order attrs = attrs.reverse ∧
    tray_visual (startup_dock_order attrs) = attrs := by
  have h1 : startup_dock_order attrs = attrs.reverse := by
    rw [startup_dock_order, dock_iter_eq, List.take_length]
  refine ⟨h1, ?_⟩
  rw [h1, tray_visual, foldl_tray_append, List.reverse_reverse,
    List.append_nil]

/-- Claim C5: over any delivery sequence the number of redraws equals the
number of observed cached-state transitions; a record whose re-read yields
the unchanged value produces no redraw; and the concrete 1 → 0 round trip
(content becomes `1`, then `0`, each delivered separately, cached state
initially 0) yields exactly two redraws painting active then inactive. -/
theorem c5_redraws_equal_transitions :
    (∀ (a : Attr) (l : List FS),
      (run_notifications a l).2 = transitions a l) ∧
    (∀ (fs : FS) (a : Attr), read_bool fs a.path = a.state →
      notify_step fs a = (a, false)) ∧
    (run_notifications attr_rt [fs_one, fs_zero]).2 = 2 ∧
    redraw_values attr_rt [fs_one, fs_zero] = [1, 0] := by
  refine ⟨fun a l => run_notifications_snd l a, ?_, by decide, by decide⟩
  intro fs a h
  simp only [notify_step]
  rw [if_neg]
  rintro ⟨-, hne⟩
  exact hne h

/-- Witness for `c5_redraws_equal_transitions`: a record re-reading `1`
against cached state 1 produces no redraw. -/
theorem c5_witness :
    notify_step fs_one attr_one = (attr_one, false) :=
  c5_redraws_equal_transitions.2.1 fs_one attr_one (by decide)

/-- Claim C6: when both fds are ready in one wake cycle, the cycle's
action trace is the full X drain followed by the notification records, so
no record is processed before the X events are drained; within the drain,
a non-exposure event contributes nothing, an exposure whose window matches
a descriptor draws exactly that (first matching) descriptor, and an
exposure matching no window is ignored. -/
theorem c6_x_drained_before_notifications (fs : FS) (attrs : List Attr)
    (xevs : List XEv) (recs : List Int) :
    (wake_cycle fs attrs true true xevs recs).2 =
      drain_x attrs xevs ++ recs.map Act.inoRecord ∧
    drain_x attrs (XEv.other :: xevs) = drain_x attrs xevs ∧
    (∀ w i, attrs.findIdx? (fun a => a.win = w) = some i →
      drain_x attrs (XEv.expose w :: xevs) =
        Act.xDraw i :: drain_x attrs xevs) ∧
    (∀ w, attrs.findIdx? (fun a => a.win = w) = none →
      drain_x attrs (XEv.expose w :: xevs) = drain_x attrs xevs) := by
  refine ⟨?_, rfl, ?_, ?_⟩
  · simp [wake_cycle, drain_ino_acts]
  · intro w i h
    simp [drain_x, h]
  · intro w h
    simp [drain_x, h]

/-- Witness for `c6_x_drained_before_notifications`: an exposure of window
9 in the one-descriptor list draws descriptor 0. -/
theorem c6_witness :
    drain_x [attr_rt] [XEv.expose 9] = [Act.xDraw 0] :=
  (c6_x_drained_before_notifications fs_one [attr_rt] [] []).2.2.1 9 0
    (by decide)

/-- Claim C7: a wait interrupted by a benign signal (EINTR) retries the
same wait; any other wait failure breaks the loop and falls through to the
`return 0` at the end of `main` with no teardown in between, and that
error path is the only way the loop emits an exit, always with code 0. -/
theorem c7_wait_retry_and_fatal :
    wait_step WaitResult.eintr = LoopStep.retryWait ∧
    wait_step WaitResult.err = LoopStep.exitProcess 0 ∧
    (∀ r c, wait_step r = LoopStep.exitProcess c →
      r = WaitResult.err ∧ c = 0) := by
  refine ⟨rfl, rfl, ?_⟩
  intro r c h
  cases r with
  | ready x ino => simp [wait_step] at h
  | eintr => simp [wait_step] at h
  | err =>
      simp only [wait_step, LoopStep.exitProcess.injEq] at h
      exact ⟨rfl, h.symm⟩

/-- Witness for `c7_wait_retry_and_fatal`: instantiating the fatal-path
inversion at the error outcome. -/
theorem c7_witness : WaitResult.err = WaitResult.err ∧ (0 : Nat) = 0 :=
  c7_wait_retry_and_fatal.2.2 WaitResult.err 0 rfl

/-- Claim C8: startup exits with code 1 exactly when there are no
positional arguments, or the windowing connection fails, or the
notification stream fails; 1 is the only startup exit code; and the usage
message is printed exactly in the no-argument case. -/
theorem c8_exit_one_exactly_startup_failures (nArgs : Nat)
    (xOk inoOk : Bool) :
    ((main_startup nArgs xOk inoOk).1 = some 1 ↔
      (nArgs = 0 ∨ xOk = false ∨ inoOk = false)) ∧
    (∀ c, (main_startup nArgs xOk inoOk).1 = some c → c = 1) ∧
    ((main_startup nArgs xOk inoOk).2 = true ↔ nArgs = 0) := by
  unfold main_startup
  by_cases h0 : nArgs = 0 <;> cases xOk <;> cases inoOk <;>
    simp [h0]

/-- Witness for `c8_exit_one_exactly_startup_failures`: zero positional
arguments exit with code 1. -/
theorem c8_witness : (main_startup 0 true true).1 = some 1 :=
  (c8_exit_one_exactly_startup_failures 0 true true).1.mpr (Or.inl rfl)

/-- Claim C9: a failed watch registration prints a warning, stores the
negative result as the descriptor's watch descriptor, changes nothing
else (the cached state is kept); the registration loop still processes
every descriptor (never aborting); and a descriptor left with a negative
watch descriptor is never matched — hence never re-read — by any record
carrying a valid (non-negative) watch descriptor. -/
theorem c9_watch_failure_nonfatal (res : Int) (a : Attr) (h : res < 0) :
    (add_watch_step res a).2 = true ∧
    (add_watch_step res a).1.wd = res ∧
    (add_watch_step res a).1.wd < 0 ∧
    (add_watch_step res a).1.state = a.state ∧
    (∀ (syscall : Attr → Int) (attrs : List Attr),
      (register_all syscall attrs).1.length = attrs.length) ∧
    (∀ (fs : FS) (rwd : Int), 0 ≤ rwd →
      ∀ (attrs : List Attr) (i : Nat) (b : Attr), attrs.get? i = some b →
        b.wd < 0 → (dispatch_record fs attrs rwd).1.get? i = some b) := by
  refine ⟨?_, rfl, ?_, rfl, ?_, ?_⟩
  · simp [add_watch_step, h]
  · simpa [add_watch_step] using h
  · intro syscall attrs
    induction attrs with
    | nil => rfl
    | cons x rest ih => simp [register_all, ih]
  · intro fs rwd hr attrs i b hb hneg
    exact dispatch_record_keeps_failed fs rwd hr attrs i b hb hneg

/-- Witness for `c9_watch_failure_nonfatal`: a registration returning -1
warns, and the descriptor it leaves behind is untouched by a record with
watch descriptor 5. -/
theorem c9_witness :
    (add_watch_step (-1) attr_rt).2 = true ∧
    (dispatch_record fs_one [attr_bad] 5).1.get? 0 = some attr_bad := by
  refine ⟨(c9_watch_failure_nonfatal (-1) attr_rt (by decide)).1, ?_⟩
  exact (c9_watch_failure_nonfatal (-1) attr_rt (by decide)).2.2.2.2.2
    fs_one 5 (by decide) [attr_bad] 0 attr_bad (by decide) (by decide)

/-- Claim C10: in notification handling any negative re-read value — from
an open/read failure or from content parsing negative — retains the cached
state and skips the redraw, and consequently whenever the event loop does
store a new cached state, that state is non-negative. -/
theorem c10_negative_reread_like_failure (fs : FS) (a : Attr) :
    (read_bool fs a.path < 0 → notify_step fs a = (a, false)) ∧
    ((notify_step fs a).1.state ≠ a.state → 0 ≤ (notify_step fs a).1.state) := by
  constructor
  · intro h
    simp only [notify_step]
    rw [if_neg]
    rintro ⟨h0, -⟩
    omega
  · intro hne
    by_cases hc : 0 ≤ read_bool fs a.path ∧ read_bool fs a.path ≠ a.state
    · simp only [notify_step, if_pos hc]
      exact hc.1
    · simp only [notify_step, if_neg hc] at hne
      exact absurd rfl hne

/-- Witness for `c10_negative_reread_like_failure`: an unopenable source
re-reads to -1 and leaves the descriptor untouched with no redraw. -/
theorem c10_witness :
    notify_step fs_missing attr_unknown = (attr_unknown, false) :=
  (c10_negative_reread_like_failure fs_missing attr_unknown).1 (by decide)

end KeyIndicator
